import Mathlib

/-!
Shallow embedding of the two command-line tools of the repository
`ConexionBlockchainPY` (files `PruebaBlockchain/Insertar.py` and
`PruebaBlockchain/Get.py`) and proofs about the claims C1..C10.

Modelling conventions:
* Python `str` is Lean `String`; `len(s)` (code points) is `String.length`.
* Byte strings are `List Nat` with every element `< 256`.
* The Keccak-256 primitive lives in the external `web3` library
  (`w3.keccak(text=...)`); the spec treats it as an opaque, assumed-correct
  collaborator.  It is therefore a parameter `keccak : List Nat → List Nat`
  of every embedded function that uses it, exactly mirroring the `w3`
  argument of the Python functions.
* Python exceptions are modelled with `Option`/`Except`.  In
  `Insertar.main`, the handler `except ValueError` catches both the
  explicit `ValueError` of `parse_content_hash` and the `binascii.Error`
  (a `ValueError` subclass) raised by `w3.to_bytes(hexstr=...)` /
  `bytes.fromhex` on invalid hex digits; the model folds all of these
  into decoding failure.
-/

/-- Value of one hexadecimal digit, as accepted by Python's `unhexlify` /
`bytes.fromhex` core: `0-9`, `a-f`, `A-F`.  `none` on any other character. -/
def hexDigitVal (c : Char) : Option Nat :=
  if '0'.toNat ≤ c.toNat ∧ c.toNat ≤ '9'.toNat then some (c.toNat - '0'.toNat)
  else if 'a'.toNat ≤ c.toNat ∧ c.toNat ≤ 'f'.toNat then some (c.toNat - 'a'.toNat + 10)
  else if 'A'.toNat ≤ c.toNat ∧ c.toNat ≤ 'F'.toNat then some (c.toNat - 'A'.toNat + 10)
  else none

/-- The ASCII whitespace characters (space, tab, LF, VT, FF, CR) that
`bytes.fromhex` skips between byte pairs. -/
def isPySpace (c : Char) : Bool :=
  decide (c.toNat = 32 ∨ c.toNat = 9 ∨ c.toNat = 10 ∨ c.toNat = 11 ∨
          c.toNat = 12 ∨ c.toNat = 13)

/-- Hex decoding of a character list as performed by Python's
`bytes.fromhex`, which `w3.to_bytes(hexstr=...)` and line 102 of
`Insertar.py` delegate to (after stripping the `0x` prefix).  Mirrors the
CPython loop: before each byte, ASCII whitespace is skipped; then two hex
digits must follow back to back (no whitespace between the two nibbles of
one byte); any other character, or a dangling single nibble, raises
`ValueError` (modelled as `none`).  In particular a string of hex-digit
pairs separated or followed by whitespace decodes successfully — possibly
to fewer bytes than half its character count. -/
def decodeHexChars : List Char → Option (List Nat)
  | [] => some []
  | c :: rest =>
    if isPySpace c then decodeHexChars rest
    else
      match rest with
      | [] => none
      | c2 :: rest2 => do
          let hi ← hexDigitVal c
          let lo ← hexDigitVal c2
          let bs ← decodeHexChars rest2
          pure ((16 * hi + lo) :: bs)

/-- UTF-8 encoding of one code point (Python `str.encode("utf-8")`). -/
def utf8EncodeCharNat (c : Char) : List Nat :=
  let n := c.toNat
  if n < 0x80 then [n]
  else if n < 0x800 then
    [0xC0 ||| (n >>> 6), 0x80 ||| (n &&& 0x3F)]
  else if n < 0x10000 then
    [0xE0 ||| (n >>> 12), 0x80 ||| ((n >>> 6) &&& 0x3F), 0x80 ||| (n &&& 0x3F)]
  else
    [0xF0 ||| (n >>> 18), 0x80 ||| ((n >>> 12) &&& 0x3F),
     0x80 ||| ((n >>> 6) &&& 0x3F), 0x80 ||| (n &&& 0x3F)]

/-- UTF-8 bytes of a string: `value.encode("utf-8")`, the byte string that
`w3.keccak(text=value)` hashes. -/
def utf8Bytes (s : String) : List Nat :=
  (s.toList.map utf8EncodeCharNat).flatten

/-- Python `value.startswith("0x")` (case-sensitive): the first two
characters are exactly `'0'` then `'x'`. -/
def startsWith0x (s : String) : Bool :=
  decide (s.toList.take 2 = ['0', 'x'])

namespace Get

/-- `parse_prescription_id` of `PruebaBlockchain/Get.py` (lines 10-17):
if `id_str` starts with `"0x"` and `len(id_str) == 66`, return
`w3.to_bytes(hexstr=id_str)` (strip the two prefix characters, hex-decode;
a non-hex digit raises, modelled as `none`); otherwise return
`w3.keccak(text=id_str)`. -/
def parse_prescription_id (id_str : String) (keccak : List Nat → List Nat) :
    Option (List Nat) :=
  if startsWith0x id_str ∧ id_str.length = 66 then
    decodeHexChars (id_str.toList.drop 2)
  else
    some (keccak (utf8Bytes id_str))

end Get

namespace Insertar

/-- `parse_prescription_id` of `PruebaBlockchain/Insertar.py` (lines 10-18),
textually the same logic as the one in `Get.py`. -/
def parse_prescription_id (value : String) (keccak : List Nat → List Nat) :
    Option (List Nat) :=
  if startsWith0x value ∧ value.length = 66 then
    decodeHexChars (value.toList.drop 2)
  else
    some (keccak (utf8Bytes value))

/-- `parse_content_hash` of `PruebaBlockchain/Insertar.py` (lines 20-30):
hex only; raises `ValueError` with a fixed message unless the input starts
with `"0x"` and has length exactly 66, then `w3.to_bytes(hexstr=hex_str)`
(whose `binascii.Error` on a bad digit is also a `ValueError`). -/
def parse_content_hash (hex_str : String) : Except String (List Nat) :=
  if ¬ (startsWith0x hex_str ∧ hex_str.length = 66) then
    .error "content_hash debe ser un hex de 32 bytes (0x + 64 hex)."
  else
    match decodeHexChars (hex_str.toList.drop 2) with
    | some bs => .ok bs
    | none => .error "Non-hexadecimal digit found"

/-- Step 7 of `Insertar.main` (lines 99-102): prepend `"0x"` when the
signature does not already start with it, then `bytes.fromhex(sig[2:])`.
A decoding failure there is an uncaught `ValueError`, modelled as `none`. -/
def normalize_signature (signature : String) : Option (List Nat) :=
  let sig := if ¬ startsWith0x signature then "0x" ++ signature else signature
  decodeHexChars (sig.toList.drop 2)

/-- Observable steps of `Insertar.main`, in program order. -/
inductive WriterEvent where
  | envErrorReport
  | connectCheck
  | connectFailReport
  | formatErrorReport (msg : String)
  | sigNormalized (bs : List Nat)
  | unhandledValueError
  | nonceQuery
  | buildCall (presc chash sig : List Nat)
  | signAndSubmit
deriving DecidableEq

/-- Events that are interactions with the network endpoint:
`w3.is_connected()` is an RPC liveness probe (line 45),
`w3.eth.get_transaction_count` (line 105) and the sign/send/wait block
(lines 115-117) talk to the node. -/
def WriterEvent.isNetworkEvent : WriterEvent → Bool
  | .connectCheck => true
  | .nonceQuery => true
  | .signAndSubmit => true
  | _ => false

/-- Whether an event is the `"❌ Error de formato: ..."` report printed by
the `except ValueError` handler (lines 94-96). -/
def WriterEvent.isFormatReport : WriterEvent → Bool
  | .formatErrorReport _ => true
  | _ => false

/-- Whether an event is the signature-normalization step (lines 99-102). -/
def WriterEvent.isSigNormalized : WriterEvent → Bool
  | .sigNormalized _ => true
  | _ => false

/-- Whether an event is the construction of the `registerPrescription`
contract call (lines 106-112). -/
def WriterEvent.isBuildCall : WriterEvent → Bool
  | .buildCall _ _ _ => true
  | _ => false

/-- Whether a `parse_content_hash` result is a success. -/
def exceptIsOk : Except String (List Nat) → Bool
  | .ok _ => true
  | .error _ => false

/-- The three CLI arguments of `Insertar.main`; `signature` defaults to
`"0x"` (argparse `default="0x"`, lines 82-87). -/
structure WriterArgs where
  prescription_id : String
  content_hash : String
  signature : String := "0x"

/-- `main` of `PruebaBlockchain/Insertar.py` as the trace of its observable
steps, in program order: env check (lines 35-41), connectivity probe
(lines 44-47), parse of the two identifiers inside `try/except ValueError`
(lines 91-96), signature normalization outside any handler (lines 99-102,
an uncaught `ValueError` on bad hex), nonce query (line 105), construction
of the `registerPrescription` call (lines 106-112), sign/submit/wait
(lines 115-117).  The message attached to a prescription-id decode failure
is a fixed stand-in (the interpreter's actual `fromhex` message embeds an
input-dependent position); claims about that report are stated through
`WriterEvent.isFormatReport` only. -/
def writerMain (args : WriterArgs) (keccak : List Nat → List Nat)
    (envOk connected : Bool) : List WriterEvent :=
  if ¬ envOk then [.envErrorReport]
  else if ¬ connected then [.connectCheck, .connectFailReport]
  else
    .connectCheck ::
    match parse_prescription_id args.prescription_id keccak with
    | none => [.formatErrorReport "Non-hexadecimal digit found"]
    | some presc =>
      match parse_content_hash args.content_hash with
      | .error msg => [.formatErrorReport msg]
      | .ok chash =>
        match normalize_signature args.signature with
        | none => [.unhandledValueError]
        | some sigBytes =>
          [.sigNormalized sigBytes, .nonceQuery,
           .buildCall presc chash sigBytes, .signAndSubmit]

end Insertar

/-! ### Helper lemmas -/

theorem startsWith0x_iff (s : String) :
    startsWith0x s = true ↔ s.toList.take 2 = ['0', 'x'] := by
  simp [startsWith0x]

theorem take_two_eq {l : List Char} {c1 c2 : Char} (h : l.take 2 = [c1, c2]) :
    ∃ rest, l = c1 :: c2 :: rest := by
  match l with
  | [] => simp at h
  | [a] => simp at h
  | a :: b :: rest =>
    simp [List.take] at h
    exact ⟨rest, by simp [h.1, h.2]⟩

theorem toList_length (s : String) : s.toList.length = s.length := rfl

theorem startsWith0x_false_of_hex (s : String)
    (h : ∀ c ∈ s.toList, (hexDigitVal c).isSome) : startsWith0x s = false := by
  rw [Bool.eq_false_iff]
  intro htrue
  obtain ⟨rest, hrest⟩ := take_two_eq ((startsWith0x_iff s).mp htrue)
  have hx := h 'x' (by rw [hrest]; simp)
  exact absurd hx (by decide)

theorem hex_range {c : Char} (h : (hexDigitVal c).isSome = true) :
    (48 ≤ c.toNat ∧ c.toNat ≤ 57) ∨ (97 ≤ c.toNat ∧ c.toNat ≤ 102) ∨
    (65 ≤ c.toNat ∧ c.toNat ≤ 70) := by
  rw [hexDigitVal] at h
  split at h
  · next hc => exact Or.inl hc
  · split at h
    · next hc => exact Or.inr (Or.inl hc)
    · split at h
      · next hc => exact Or.inr (Or.inr hc)
      · simp at h

theorem not_space_of_hex {c : Char} (h : (hexDigitVal c).isSome = true) :
    isPySpace c = false := by
  rw [isPySpace, decide_eq_false_iff_not]
  rcases hex_range h with ⟨h1, h2⟩ | ⟨h1, h2⟩ | ⟨h1, h2⟩ <;> omega

theorem decodeHexChars_all_hex :
    ∀ l : List Char, l.length % 2 = 0 → (∀ c ∈ l, (hexDigitVal c).isSome) →
      ∃ bs, decodeHexChars l = some bs ∧ bs.length = l.length / 2
  | [], _, _ => ⟨[], rfl, rfl⟩
  | [_], h, _ => by simp at h
  | c1 :: c2 :: rest, h, hall => by
    obtain ⟨hi, e1⟩ := Option.isSome_iff_exists.mp (hall c1 (by simp))
    obtain ⟨lo, e2⟩ := Option.isSome_iff_exists.mp (hall c2 (by simp))
    have hr : rest.length % 2 = 0 := by
      have : (c1 :: c2 :: rest).length = rest.length + 2 := by simp
      omega
    obtain ⟨bs0, e3, hl⟩ :=
      decodeHexChars_all_hex rest hr (fun c hc => hall c (by simp [hc]))
    refine ⟨(16 * hi + lo) :: bs0, ?_, ?_⟩
    · rw [decodeHexChars,
        if_neg (by rw [not_space_of_hex (hall c1 (by simp))]; exact Bool.false_ne_true)]
      simp [e1, e2, e3]
    · simp [hl]
      omega

/-! ### Claims -/

/-- C1: for every string starting with `"0x"` of length 66 whose 64
remaining characters are hex digits, the flexible canonicalizer
(`parse_prescription_id`, in both files) returns exactly the 32 bytes
hex-decoded from the string; no hashing is applied (the result does not
depend on the Keccak primitive `k` / `k2`). -/
theorem C1_flexible_hex_literal (s : String) (k k2 : List Nat → List Nat)
    (bs : List Nat)
    (hpre : startsWith0x s = true) (hlen : s.length = 66)
    (hhex : ∀ c ∈ s.toList.drop 2, (hexDigitVal c).isSome)
    (hdec : decodeHexChars (s.toList.drop 2) = some bs) :
    bs.length = 32 ∧
    Get.parse_prescription_id s k = some bs ∧
    Insertar.parse_prescription_id s k2 = some bs := by
  have hlen' : (s.toList.drop 2).length = 64 := by
    simp [toList_length, hlen]
  obtain ⟨bs', e, hl⟩ := decodeHexChars_all_hex _ (by omega) hhex
  obtain rfl : bs' = bs := Option.some.inj (e.symm.trans hdec)
  refine ⟨by omega, ?_, ?_⟩
  · rw [Get.parse_prescription_id, if_pos ⟨hpre, hlen⟩]
    exact hdec
  · rw [Insertar.parse_prescription_id, if_pos ⟨hpre, hlen⟩]
    exact hdec

/-- Witness for C1 at the spec's end-to-end scenario 2:
`"0x" ++ "ab" * 32` decodes to the byte `0xab = 171` repeated 32 times,
and both canonicalizers return exactly those bytes, under two different
stand-ins for the Keccak primitive. -/
theorem C1_flexible_hex_literal_witness :
    (List.replicate 32 171).length = 32 ∧
    Get.parse_prescription_id
      "0xabababababababababababababababababababababababababababababababab"
      (fun _ => List.replicate 32 0) = some (List.replicate 32 171) ∧
    Insertar.parse_prescription_id
      "0xabababababababababababababababababababababababababababababababab"
      (fun _ => []) = some (List.replicate 32 171) :=
  C1_flexible_hex_literal _ _ _ _ (by decide) (by decide) (by decide) (by decide)

/-- C2: for every string that does not both start with `"0x"` and have
length exactly 66, the flexible canonicalizer (in both files) returns the
Keccak-256 hash of the UTF-8 bytes of the string.  Determinism is inherent:
the embedded function is pure, so the result is the one value
`k (utf8Bytes s)` on every call. -/
theorem C2_flexible_hashing (s : String) (k : List Nat → List Nat)
    (h : ¬ (startsWith0x s = true ∧ s.length = 66)) :
    Get.parse_prescription_id s k = some (k (utf8Bytes s)) ∧
    Insertar.parse_prescription_id s k = some (k (utf8Bytes s)) := by
  constructor
  · rw [Get.parse_prescription_id, if_neg h]
  · rw [Insertar.parse_prescription_id, if_neg h]

/-- Witness for C2 at the spec's end-to-end scenario 1: the plain-text id
`"PRESC-001"` is hashed (here the Keccak stand-in returns its input, so the
result is the UTF-8 bytes of the id). -/
theorem C2_flexible_hashing_witness :
    Get.parse_prescription_id "PRESC-001" (fun bs => bs)
        = some (utf8Bytes "PRESC-001") ∧
    Insertar.parse_prescription_id "PRESC-001" (fun bs => bs)
        = some (utf8Bytes "PRESC-001") :=
  C2_flexible_hashing "PRESC-001" (fun bs => bs) (by decide)

/-- C9: the prefix test is case-sensitive.  A string of length 66 whose
first two characters are `'0'` and uppercase `'X'` fails the
`startswith("0x")` check, so both canonicalizers take the hashing branch
and return the Keccak-256 hash of the whole string. -/
theorem C9_uppercase_prefix_hashes (s : String) (k : List Nat → List Nat)
    (hpre : s.toList.take 2 = ['0', 'X']) (hlen : s.length = 66) :
    Get.parse_prescription_id s k = some (k (utf8Bytes s)) ∧
    Insertar.parse_prescription_id s k = some (k (utf8Bytes s)) := by
  have hne : ¬ (startsWith0x s = true ∧ s.length = 66) := by
    intro hcontra
    have hx := (startsWith0x_iff s).mp hcontra.1
    rw [hpre] at hx
    exact absurd hx (by decide)
  constructor
  · rw [Get.parse_prescription_id, if_neg hne]
  · rw [Insertar.parse_prescription_id, if_neg hne]

/-- Witness for C9: `"0X" ++ 64 hex digits` is hashed, not decoded, even
though all 64 digits are valid hex. -/
theorem C9_uppercase_prefix_hashes_witness :
    Get.parse_prescription_id
        "0Xabababababababababababababababababababababababababababababababab"
        (fun bs => bs)
      = some (utf8Bytes
        "0Xabababababababababababababababababababababababababababababababab") ∧
    Insertar.parse_prescription_id
        "0Xabababababababababababababababababababababababababababababababab"
        (fun bs => bs)
      = some (utf8Bytes
        "0Xabababababababababababababababababababababababababababababababab") :=
  C9_uppercase_prefix_hashes _ _ (by decide) (by decide)

/-- C3: the strict content-hash canonicalizer (`parse_content_hash`)
rejects every input that does not both start with `"0x"` and have length
exactly 66 with the fixed human-readable `ValueError` message — including
plain text the flexible canonicalizer would hash — and on a conforming
`0x` + 64-hex-digit input it returns exactly the hex-decoded 32 bytes.
It never hashes: the embedded function has no Keccak parameter at all. -/
theorem C3_strict_content_hash (s : String) (bs : List Nat) :
    (¬ (startsWith0x s = true ∧ s.length = 66) →
      Insertar.parse_content_hash s
        = .error "content_hash debe ser un hex de 32 bytes (0x + 64 hex).") ∧
    (startsWith0x s = true → s.length = 66 →
      (∀ c ∈ s.toList.drop 2, (hexDigitVal c).isSome) →
      decodeHexChars (s.toList.drop 2) = some bs →
      Insertar.parse_content_hash s = .ok bs ∧ bs.length = 32) := by
  constructor
  · intro h
    rw [Insertar.parse_content_hash, if_pos h]
  · intro hpre hlen hhex hdec
    constructor
    · rw [Insertar.parse_content_hash, if_neg (not_not_intro ⟨hpre, hlen⟩), hdec]
    · have hlen' : (s.toList.drop 2).length = 64 := by
        simp [toList_length, hlen]
      obtain ⟨bs', e, hl⟩ := decodeHexChars_all_hex _ (by omega) hhex
      obtain rfl : bs' = bs := Option.some.inj (e.symm.trans hdec)
      omega

/-- Witness for C3: the plain text `"PRESC-001"` (which the flexible
canonicalizer accepts via hashing) is rejected with the format error, while
`"0x" ++ "ab" * 32` is decoded to the literal 32 bytes. -/
theorem C3_strict_content_hash_witness :
    Insertar.parse_content_hash "PRESC-001"
      = .error "content_hash debe ser un hex de 32 bytes (0x + 64 hex)." ∧
    (Insertar.parse_content_hash
        "0xabababababababababababababababababababababababababababababababab"
      = .ok (List.replicate 32 171) ∧ (List.replicate 32 171).length = 32) :=
  ⟨(C3_strict_content_hash "PRESC-001" []).1 (by decide),
   (C3_strict_content_hash
      "0xabababababababababababababababababababababababababababababababab"
      (List.replicate 32 171)).2 (by decide) (by decide) (by decide) (by decide)⟩

/-- C6: the signature normalizer yields the empty byte sequence on `""`
and on `"0x"`, and for every even-length string of hex digits `h`,
normalizing `h` and normalizing `"0x" ++ h` give the same (successful)
byte output. -/
theorem C6_signature_normalizer (h : String)
    (heven : h.length % 2 = 0)
    (hhex : ∀ c ∈ h.toList, (hexDigitVal c).isSome) :
    Insertar.normalize_signature "" = some [] ∧
    Insertar.normalize_signature "0x" = some [] ∧
    Insertar.normalize_signature h = Insertar.normalize_signature ("0x" ++ h) ∧
    (Insertar.normalize_signature h).isSome = true := by
  have happ : ("0x" ++ h).toList = '0' :: 'x' :: h.toList := by
    show ("0x" ++ h).data = '0' :: 'x' :: h.data
    rw [String.data_append]
    rfl
  have hfalse : ¬ startsWith0x h = true := by
    rw [startsWith0x_false_of_hex h hhex]
    exact Bool.false_ne_true
  have htrue : startsWith0x ("0x" ++ h) = true := by
    rw [startsWith0x_iff, happ]
    rfl
  have lhs_eq : Insertar.normalize_signature h = decodeHexChars h.toList := by
    show decodeHexChars
        ((if ¬ startsWith0x h = true then "0x" ++ h else h).toList.drop 2)
      = decodeHexChars h.toList
    rw [if_pos hfalse, happ]
    rfl
  have rhs_eq : Insertar.normalize_signature ("0x" ++ h)
      = decodeHexChars h.toList := by
    show decodeHexChars
        ((if ¬ startsWith0x ("0x" ++ h) = true then "0x" ++ ("0x" ++ h)
          else "0x" ++ h).toList.drop 2)
      = decodeHexChars h.toList
    rw [if_neg (not_not_intro htrue), happ]
    rfl
  refine ⟨by decide, by decide, lhs_eq.trans rhs_eq.symm, ?_⟩
  obtain ⟨bs, e, _⟩ := decodeHexChars_all_hex h.toList
    (by rw [toList_length]; exact heven) hhex
  rw [lhs_eq, e]
  rfl

/-- Witness for C6 at the spec's example: `"abcd"` and `"0xabcd"` normalize
to the same successful 2-byte output. -/
theorem C6_signature_normalizer_witness :
    Insertar.normalize_signature "" = some [] ∧
    Insertar.normalize_signature "0x" = some [] ∧
    Insertar.normalize_signature "abcd" = Insertar.normalize_signature "0xabcd" ∧
    (Insertar.normalize_signature "abcd").isSome = true :=
  C6_signature_normalizer "abcd" (by decide) (by decide)

/-- Counterexample to C7 as stated: `"0x"` + 31 hex-digit pairs + 2 trailing
spaces has the `0x` prefix and length 66, so the canonicalizer takes the
hex-decode branch — and `bytes.fromhex` skips the trailing whitespace and
returns 31 bytes, a successful result that is not 32 bytes long. -/
theorem C7_counterexample_whitespace :
    Insertar.parse_prescription_id
        ("0x" ++ String.mk (List.flatten (List.replicate 31 ['a', 'b'])) ++ "  ")
        (fun _ => List.replicate 32 0)
      = some (List.replicate 31 171) ∧
    Get.parse_prescription_id
        ("0x" ++ String.mk (List.flatten (List.replicate 31 ['a', 'b'])) ++ "  ")
        (fun _ => List.replicate 32 0)
      = some (List.replicate 31 171) ∧
    (List.replicate 31 (171 : Nat)).length ≠ 32 :=
  ⟨by decide, by decide, by decide⟩

/-- C7 amended: the derivation branch is fully determined by the `"0x"`
prefix together with the input length being exactly 66, and a successful
result is exactly 32 bytes whenever the hashing branch is taken or the hex
branch's 64-character digit portion consists solely of hex digits.  (A
hex-shaped input whose digit portion mixes hex-digit pairs with ASCII
whitespace decodes successfully to fewer than 32 bytes.) -/
theorem C7_amended_32_bytes (s : String) (k : List Nat → List Nat)
    (bs : List Nat) (hk : ∀ b, (k b).length = 32) :
    ((∀ c ∈ s.toList.drop 2, (hexDigitVal c).isSome) →
      Insertar.parse_prescription_id s k = some bs → bs.length = 32) ∧
    ((∀ c ∈ s.toList.drop 2, (hexDigitVal c).isSome) →
      Get.parse_prescription_id s k = some bs → bs.length = 32) ∧
    (startsWith0x s = true ∧ s.length = 66 →
      Insertar.parse_prescription_id s k = decodeHexChars (s.toList.drop 2) ∧
      Get.parse_prescription_id s k = decodeHexChars (s.toList.drop 2)) ∧
    (¬ (startsWith0x s = true ∧ s.length = 66) →
      Insertar.parse_prescription_id s k = some (k (utf8Bytes s)) ∧
      Get.parse_prescription_id s k = some (k (utf8Bytes s))) := by
  have hlen32 : (∀ c ∈ s.toList.drop 2, (hexDigitVal c).isSome) →
      Insertar.parse_prescription_id s k = some bs → bs.length = 32 := by
    intro hhex hsome
    by_cases hc : startsWith0x s = true ∧ s.length = 66
    · rw [Insertar.parse_prescription_id, if_pos hc] at hsome
      have h64 : (s.toList.drop 2).length = 64 := by
        simp [toList_length, hc.2]
      obtain ⟨bs', e, hl⟩ := decodeHexChars_all_hex _ (by omega) hhex
      obtain rfl : bs' = bs := Option.some.inj (e.symm.trans hsome)
      omega
    · rw [Insertar.parse_prescription_id, if_neg hc] at hsome
      have : bs = k (utf8Bytes s) := by
        injection hsome with h2
        exact h2.symm
      rw [this]
      exact hk _
  refine ⟨hlen32, hlen32, fun hc => ?_, fun hc => ?_⟩
  · constructor
    · rw [Insertar.parse_prescription_id, if_pos hc]
    · rw [Get.parse_prescription_id, if_pos hc]
  · constructor
    · rw [Insertar.parse_prescription_id, if_neg hc]
    · rw [Get.parse_prescription_id, if_neg hc]

/-- Witness for C7 amended: the all-hex input `"0x" ++ "ab" * 32` yields
exactly 32 bytes, and the plain-text input `"hello"` takes the hashing
branch with a Keccak stand-in that always returns 32 bytes. -/
theorem C7_amended_32_bytes_witness :
    (List.replicate 32 (171 : Nat)).length = 32 ∧
    (Insertar.parse_prescription_id "hello" (fun _ => List.replicate 32 0)
        = some (List.replicate 32 0) ∧
     Get.parse_prescription_id "hello" (fun _ => List.replicate 32 0)
        = some (List.replicate 32 0)) :=
  ⟨(C7_amended_32_bytes
      "0xabababababababababababababababababababababababababababababababab"
      (fun _ => List.replicate 32 0) (List.replicate 32 171)
      (fun _ => rfl)).1 (by decide) (by decide),
   (C7_amended_32_bytes "hello" (fun _ => List.replicate 32 0)
      (List.replicate 32 171) (fun _ => rfl)).2.2.2 (by decide)⟩

/-- C8: the reader's and the writer's identifier canonicalizers are
extensionally equal: on every input string and every Keccak primitive the
two `parse_prescription_id` functions return the same result (the same
bytes, or the same failure), so a record registered under an id is looked
up under the identical 32-byte key. -/
theorem C8_reader_writer_agree (s : String) (k : List Nat → List Nat) :
    Get.parse_prescription_id s k = Insertar.parse_prescription_id s k := rfl

/-- Helper: when the prescription-id parse raises (shapely hex with a bad
digit), the writer's trace is the probe followed by the format report. -/
theorem writerMain_presc_fail (args : Insertar.WriterArgs)
    (k : List Nat → List Nat)
    (e1 : Insertar.parse_prescription_id args.prescription_id k = none) :
    Insertar.writerMain args k true true
      = [.connectCheck, .formatErrorReport "Non-hexadecimal digit found"] := by
  simp [Insertar.writerMain, e1]

/-- Helper: when the content hash fails the strict shape check, the
writer's trace is the probe followed by the format report. -/
theorem writerMain_chash_fail (args : Insertar.WriterArgs)
    (k : List Nat → List Nat) (p : List Nat)
    (e1 : Insertar.parse_prescription_id args.prescription_id k = some p)
    (h : ¬ (startsWith0x args.content_hash = true ∧
            args.content_hash.length = 66)) :
    Insertar.writerMain args k true true
      = [.connectCheck,
         .formatErrorReport
           "content_hash debe ser un hex de 32 bytes (0x + 64 hex)."] := by
  have e2 : Insertar.parse_content_hash args.content_hash
      = .error "content_hash debe ser un hex de 32 bytes (0x + 64 hex)." := by
    rw [Insertar.parse_content_hash, if_pos h]
  simp [Insertar.writerMain, e1, e2]

/-- Helper: when the prescription id parses but the content hash raises any
`ValueError` (shape failure or bad hex digits), the writer's trace is the
probe followed by the format report of that error's message. -/
theorem writerMain_chash_error (args : Insertar.WriterArgs)
    (k : List Nat → List Nat) (p : List Nat) (m : String)
    (e1 : Insertar.parse_prescription_id args.prescription_id k = some p)
    (e2 : Insertar.parse_content_hash args.content_hash = .error m) :
    Insertar.writerMain args k true true
      = [.connectCheck, .formatErrorReport m] := by
  simp [Insertar.writerMain, e1, e2]

/-- Counterexample to C4 as stated: with a malformed signature argument
`"zz"` (id and content hash well formed), the writer reports no format
error; `bytes.fromhex` at line 102 sits outside the `try/except ValueError`
block, so the `ValueError` it raises is unhandled. -/
theorem C4_counterexample_signature_unhandled :
    Insertar.writerMain
        ⟨"PRESC-001",
         "0xabababababababababababababababababababababababababababababababab",
         "zz"⟩ (fun _ => List.replicate 32 0) true true
      = [.connectCheck, .unhandledValueError] ∧
    (Insertar.writerMain
        ⟨"PRESC-001",
         "0xabababababababababababababababababababababababababababababababab",
         "zz"⟩ (fun _ => List.replicate 32 0) true true).any
        Insertar.WriterEvent.isFormatReport = false :=
  ⟨by decide, by decide⟩

/-- C4 amended: every malformed-hex content-hash error — wrong shape or
invalid hex digits, i.e. every input on which `parse_content_hash` raises —
is detected during canonicalization, reported by the `except ValueError`
handler, and the writer returns before constructing any contract call and
with no unhandled exception; a malformed-hex signature, by contrast, is
not caught — it raises an unhandled `ValueError` during normalization —
though that too happens before any contract call is constructed. -/
theorem C4_amended_input_errors (args : Insertar.WriterArgs)
    (k : List Nat → List Nat) :
    (Insertar.exceptIsOk (Insertar.parse_content_hash args.content_hash) = false →
      (Insertar.writerMain args k true true).any
          Insertar.WriterEvent.isFormatReport = true ∧
      (Insertar.writerMain args k true true).any
          Insertar.WriterEvent.isBuildCall = false ∧
      Insertar.WriterEvent.signAndSubmit ∉ Insertar.writerMain args k true true ∧
      Insertar.WriterEvent.unhandledValueError ∉
        Insertar.writerMain args k true true) ∧
    ((Insertar.parse_prescription_id args.prescription_id k).isSome = true →
      Insertar.exceptIsOk (Insertar.parse_content_hash args.content_hash) = true →
      Insertar.normalize_signature args.signature = none →
      Insertar.writerMain args k true true
        = [.connectCheck, .unhandledValueError]) := by
  constructor
  · intro h
    cases e1 : Insertar.parse_prescription_id args.prescription_id k with
    | none =>
      rw [writerMain_presc_fail args k e1]
      exact ⟨by decide, by decide, by decide, by decide⟩
    | some p =>
      cases e2 : Insertar.parse_content_hash args.content_hash with
      | ok c =>
        rw [e2] at h
        simp [Insertar.exceptIsOk] at h
      | error m =>
        rw [writerMain_chash_error args k p m e1 e2]
        exact ⟨rfl, rfl, by simp, by simp⟩
  · intro h1 h2 h3
    obtain ⟨p, e1⟩ := Option.isSome_iff_exists.mp h1
    cases e2 : Insertar.parse_content_hash args.content_hash with
    | error m =>
      rw [e2] at h2
      simp [Insertar.exceptIsOk] at h2
    | ok c =>
      simp [Insertar.writerMain, e1, e2, h3]

/-- Witness for C4 amended, at all three failure shapes: the too-short
content hash `"0xdeadbeef"` and the well-shaped content hash with non-hex
digits (`"0x"` + 64 `'z'`) are both reported without reaching call
construction, and the malformed signature `"zz"` leads to an unhandled
`ValueError`. -/
theorem C4_amended_input_errors_witness :
    ((Insertar.writerMain ⟨"PRESC-001", "0xdeadbeef", "0x"⟩
        (fun _ => List.replicate 32 0) true true).any
        Insertar.WriterEvent.isFormatReport = true ∧
     (Insertar.writerMain ⟨"PRESC-001", "0xdeadbeef", "0x"⟩
        (fun _ => List.replicate 32 0) true true).any
        Insertar.WriterEvent.isBuildCall = false ∧
     Insertar.WriterEvent.signAndSubmit ∉
       Insertar.writerMain ⟨"PRESC-001", "0xdeadbeef", "0x"⟩
         (fun _ => List.replicate 32 0) true true ∧
     Insertar.WriterEvent.unhandledValueError ∉
       Insertar.writerMain ⟨"PRESC-001", "0xdeadbeef", "0x"⟩
         (fun _ => List.replicate 32 0) true true) ∧
    ((Insertar.writerMain
        ⟨"PRESC-001",
         "0x" ++ String.mk (List.replicate 64 'z'), "0x"⟩
        (fun _ => List.replicate 32 0) true true).any
        Insertar.WriterEvent.isFormatReport = true ∧
     (Insertar.writerMain
        ⟨"PRESC-001",
         "0x" ++ String.mk (List.replicate 64 'z'), "0x"⟩
        (fun _ => List.replicate 32 0) true true).any
        Insertar.WriterEvent.isBuildCall = false ∧
     Insertar.WriterEvent.signAndSubmit ∉
       Insertar.writerMain
         ⟨"PRESC-001",
          "0x" ++ String.mk (List.replicate 64 'z'), "0x"⟩
         (fun _ => List.replicate 32 0) true true ∧
     Insertar.WriterEvent.unhandledValueError ∉
       Insertar.writerMain
         ⟨"PRESC-001",
          "0x" ++ String.mk (List.replicate 64 'z'), "0x"⟩
         (fun _ => List.replicate 32 0) true true) ∧
    Insertar.writerMain
        ⟨"PRESC-002",
         "0xabababababababababababababababababababababababababababababababab",
         "zz"⟩ (fun _ => List.replicate 32 0) true true
      = [.connectCheck, .unhandledValueError] :=
  ⟨(C4_amended_input_errors ⟨"PRESC-001", "0xdeadbeef", "0x"⟩
      (fun _ => List.replicate 32 0)).1 (by decide),
   (C4_amended_input_errors
      ⟨"PRESC-001", "0x" ++ String.mk (List.replicate 64 'z'), "0x"⟩
      (fun _ => List.replicate 32 0)).1 (by decide),
   (C4_amended_input_errors
      ⟨"PRESC-002",
       "0xabababababababababababababababababababababababababababababababab",
       "zz"⟩
      (fun _ => List.replicate 32 0)).2 (by decide) (by decide) (by decide)⟩

/-- Counterexample to C5 as stated: end-to-end scenario 3 (content hash
`"0xdeadbeef"`, too short).  The writer does report a format error, but its
trace contains a network interaction: the `w3.is_connected()` liveness
probe (line 45) runs before argument parsing and canonicalization, so
"performs no network interaction" is false. -/
theorem C5_counterexample_probe_precedes :
    Insertar.writerMain ⟨"PRESC-001", "0xdeadbeef", "0x"⟩
        (fun _ => List.replicate 32 0) true true
      = [.connectCheck,
         .formatErrorReport
           "content_hash debe ser un hex de 32 bytes (0x + 64 hex)."] ∧
    (Insertar.writerMain ⟨"PRESC-001", "0xdeadbeef", "0x"⟩
        (fun _ => List.replicate 32 0) true true).any
        Insertar.WriterEvent.isNetworkEvent = true :=
  ⟨by decide, by decide⟩

/-- C5 amended: for every invocation with a malformed content-hash
argument, the writer reports a format error and performs no network
interaction beyond the initial connectivity probe: the trace's only network
event is `connectCheck`, and in particular no nonce query, no contract-call
construction and no transaction submission occur. -/
theorem C5_amended_error_before_contract_calls (args : Insertar.WriterArgs)
    (k : List Nat → List Nat)
    (h : ¬ (startsWith0x args.content_hash = true ∧
            args.content_hash.length = 66)) :
    (Insertar.writerMain args k true true).any
        Insertar.WriterEvent.isFormatReport = true ∧
    (Insertar.writerMain args k true true).filter
        Insertar.WriterEvent.isNetworkEvent = [.connectCheck] ∧
    Insertar.WriterEvent.nonceQuery ∉ Insertar.writerMain args k true true ∧
    Insertar.WriterEvent.signAndSubmit ∉ Insertar.writerMain args k true true ∧
    (Insertar.writerMain args k true true).any
        Insertar.WriterEvent.isBuildCall = false := by
  cases e1 : Insertar.parse_prescription_id args.prescription_id k with
  | none =>
    rw [writerMain_presc_fail args k e1]
    exact ⟨by decide, by decide, by decide, by decide, by decide⟩
  | some p =>
    rw [writerMain_chash_fail args k p e1 h]
    exact ⟨by decide, by decide, by decide, by decide, by decide⟩

/-- Witness for C5 amended at scenario 3 (`"0xdeadbeef"` as content hash). -/
theorem C5_amended_error_before_contract_calls_witness :
    (Insertar.writerMain ⟨"PRESC-003", "0xdeadbeef", "0x"⟩
        (fun _ => List.replicate 32 0) true true).any
        Insertar.WriterEvent.isFormatReport = true ∧
    (Insertar.writerMain ⟨"PRESC-003", "0xdeadbeef", "0x"⟩
        (fun _ => List.replicate 32 0) true true).filter
        Insertar.WriterEvent.isNetworkEvent = [.connectCheck] ∧
    Insertar.WriterEvent.nonceQuery ∉
      Insertar.writerMain ⟨"PRESC-003", "0xdeadbeef", "0x"⟩
        (fun _ => List.replicate 32 0) true true ∧
    Insertar.WriterEvent.signAndSubmit ∉
      Insertar.writerMain ⟨"PRESC-003", "0xdeadbeef", "0x"⟩
        (fun _ => List.replicate 32 0) true true ∧
    (Insertar.writerMain ⟨"PRESC-003", "0xdeadbeef", "0x"⟩
        (fun _ => List.replicate 32 0) true true).any
        Insertar.WriterEvent.isBuildCall = false :=
  C5_amended_error_before_contract_calls ⟨"PRESC-003", "0xdeadbeef", "0x"⟩
    (fun _ => List.replicate 32 0) (by decide)

/-- Counterexample to C10 as stated: a prescription id of the hex shape
whose 64-character digit portion is all spaces — non-hex characters —
is not caught at all: `bytes.fromhex` skips the whitespace and decodes it
to the empty byte string, and the writer proceeds through signature
normalization, the nonce query and contract-call construction with no
format-error report. -/
theorem C10_counterexample_whitespace_id :
    Insertar.writerMain
        ⟨"0x" ++ String.mk (List.replicate 64 ' '),
         "0xabababababababababababababababababababababababababababababababab",
         "0x"⟩ (fun _ => List.replicate 32 0) true true
      = [.connectCheck, .sigNormalized [], .nonceQuery,
         .buildCall [] (List.replicate 32 171) [], .signAndSubmit] ∧
    (Insertar.writerMain
        ⟨"0x" ++ String.mk (List.replicate 64 ' '),
         "0xabababababababababababababababababababababababababababababababab",
         "0x"⟩ (fun _ => List.replicate 32 0) true true).any
        Insertar.WriterEvent.isFormatReport = false :=
  ⟨by decide, by decide⟩

/-- C10 amended: a prescription id of the hex shape (`"0x"` prefix, length
66) whose digit portion makes the hex decode fail — it contains a
character that is neither a hex digit nor ASCII whitespace, or whitespace
splits a digit pair — makes `w3.to_bytes` raise a `ValueError` inside the
same `try/except ValueError` block as the strict content-hash check, so it
is reported as a format error and the writer returns before the
signature-normalization step and before any contract call is constructed,
with no unhandled exception.  (A digit portion of hex-digit pairs mixed
with whitespace decodes successfully — possibly to fewer than 32 bytes —
and the writer proceeds.) -/
theorem C10_amended_decode_failure (args : Insertar.WriterArgs)
    (k : List Nat → List Nat)
    (hpre : startsWith0x args.prescription_id = true)
    (hlen : args.prescription_id.length = 66)
    (hfail : decodeHexChars (args.prescription_id.toList.drop 2) = none) :
    (Insertar.writerMain args k true true).any
        Insertar.WriterEvent.isFormatReport = true ∧
    (Insertar.writerMain args k true true).any
        Insertar.WriterEvent.isSigNormalized = false ∧
    (Insertar.writerMain args k true true).any
        Insertar.WriterEvent.isBuildCall = false ∧
    Insertar.WriterEvent.unhandledValueError ∉
      Insertar.writerMain args k true true := by
  have e1 : Insertar.parse_prescription_id args.prescription_id k = none := by
    rw [Insertar.parse_prescription_id, if_pos ⟨hpre, hlen⟩]
    exact hfail
  rw [writerMain_presc_fail args k e1]
  exact ⟨by decide, by decide, by decide, by decide⟩

/-- Witness for C10 amended: a shapely id whose 64-character digit portion
is all `'z'` is caught and reported, stopping before signature
normalization and call construction. -/
theorem C10_amended_decode_failure_witness :
    (Insertar.writerMain
        ⟨"0x" ++ String.mk (List.replicate 64 'z'),
         "0xabababababababababababababababababababababababababababababababab",
         "0x"⟩ (fun _ => List.replicate 32 0) true true).any
        Insertar.WriterEvent.isFormatReport = true ∧
    (Insertar.writerMain
        ⟨"0x" ++ String.mk (List.replicate 64 'z'),
         "0xabababababababababababababababababababababababababababababababab",
         "0x"⟩ (fun _ => List.replicate 32 0) true true).any
        Insertar.WriterEvent.isSigNormalized = false ∧
    (Insertar.writerMain
        ⟨"0x" ++ String.mk (List.replicate 64 'z'),
         "0xabababababababababababababababababababababababababababababababab",
         "0x"⟩ (fun _ => List.replicate 32 0) true true).any
        Insertar.WriterEvent.isBuildCall = false ∧
    Insertar.WriterEvent.unhandledValueError ∉
      Insertar.writerMain
        ⟨"0x" ++ String.mk (List.replicate 64 'z'),
         "0xabababababababababababababababababababababababababababababababab",
         "0x"⟩ (fun _ => List.replicate 32 0) true true :=
  C10_amended_decode_failure
    ⟨"0x" ++ String.mk (List.replicate 64 'z'),
     "0xabababababababababababababababababababababababababababababababab",
     "0x"⟩ (fun _ => List.replicate 32 0) (by decide) (by decide) (by decide)
